import Mathlib

/-!
# Wallet connection lifecycle of `src/src/App.jsx`

A shallow embedding of the `App` component: its React state, the two
`localStorage` entries, and the functions `checkNetwork`, `switchToSepolia`,
`connectWallet`, `init`, the `accountsChanged` and `chainChanged` listeners,
the state commit scheduled by `handleLogout`, and the render function.

The browser wallet (`window.ethereum`) and the `ethers` library are outside the
repository.  The wallet and the signer are modelled as an environment `Env` of
oracles: each answer may depend on everything that happened before (the trace of
effects), and each request may be rejected.  Every function threads a `World`
(state plus trace) and, where the source function is `async` or may throw, also
returns how the call ended (`Except JsError`).

The trace records what `App.jsx` itself does: its calls of
`window.ethereum.request` and `provider.send`, of `alert`, `console.error` and
`window.location.reload`.  Requests that `ethers` makes on its own account (the
`eth_accounts` request behind `signer.getAddress()`, the network detection that a
new `Web3Provider` starts) are not recorded; their outcome is the oracle
`getAddress`.
-/

namespace App

/-! ## Constants (lines 18-51) -/

/-- Human-readable ABI handed to `ethers.Contract` (lines 19-37). -/
def CONTRACT_ABI : List String :=
  ["function addFile(string memory _fileName, string memory _fileType, string memory _ipfsHash, uint256 _fileSize, bool _isPublic, string memory _description, string[] memory _tags) external",
   "function getMyFiles() external view returns (tuple(string fileName, string fileType, string ipfsHash, uint256 fileSize, uint256 uploadTime, address owner, bool isPublic, string description, string[] tags)[])",
   "function getPublicFiles() external view returns (tuple(string fileName, string fileType, string ipfsHash, uint256 fileSize, uint256 uploadTime, address owner, bool isPublic, string description, string[] tags)[])",
   "function getUserFiles(address _user) external view returns (tuple(string fileName, string fileType, string ipfsHash, uint256 fileSize, uint256 uploadTime, address owner, bool isPublic, string description, string[] tags)[])",
   "function allow(address user) external",
   "function disallow(address user) external",
   "function shareAccess() external view returns (tuple(address user, bool access)[])",
   "function deleteFile(uint256 _fileId) external",
   "function grantFileAccess(uint256 _fileId, address _user) external",
   "function revokeFileAccess(uint256 _fileId, address _user) external",
   "function getFileAccessList() external view returns (tuple(uint256 fileId, address user, bool hasAccess)[])",
   "function hasFileAccess(uint256 _fileId, address _user) external view returns (bool)",
   "event FileUploaded(address indexed user, uint256 indexed fileId, string fileName, string ipfsHash)",
   "event AccessGranted(address indexed owner, address indexed user)",
   "event FileDeleted(address indexed user, uint256 indexed fileId)",
   "event FileAccessGranted(address indexed owner, address indexed user, uint256 indexed fileId)",
   "event FileAccessRevoked(address indexed owner, address indexed user, uint256 indexed fileId)"]

/-- The `nativeCurrency` object of a chain descriptor. -/
structure NativeCurrency where
  name : String
  symbol : String
  decimals : Nat
deriving DecidableEq, Repr

/-- The shape of `SEPOLIA_CONFIG`: the parameter of `wallet_addEthereumChain`. -/
structure ChainConfig where
  chainId : String
  chainName : String
  nativeCurrency : NativeCurrency
  rpcUrls : List String
  blockExplorerUrls : List String
deriving DecidableEq, Repr

/-- Line 40. -/
def SEPOLIA_CHAIN_ID : String := "0xaa36a7"

/-- Lines 41-51. -/
def SEPOLIA_CONFIG : ChainConfig :=
  ChainConfig.mk SEPOLIA_CHAIN_ID "Sepolia Test Network"
    (NativeCurrency.mk "SepoliaETH" "ETH" 18)
    ["https://sepolia.infura.io/v3/"]
    ["https://sepolia.etherscan.io/"]

/-! ## Values exchanged with the outside -/

/-- A thrown or rejected JavaScript value; `code` is its `.code` property when it is
the number the wallet put there, `none` when the property is absent. -/
structure JsError where
  code : Option Int
  message : String
deriving DecidableEq, Repr

/-- One element of the `params` array of a wallet request. -/
inductive Param where
  /-- The object with the single key chainId (line 149). -/
  | chainRef (chainId : String)
  /-- A full chain descriptor (line 157). -/
  | chainConfig (config : ChainConfig)
  /-- The object with the single key eth_accounts (line 101). -/
  | ethAccountsPermission
deriving DecidableEq, Repr

/-- What the component does to the outside world, in the order it does it. -/
inductive Effect where
  /-- A wallet request written in `App.jsx`, with this method and params: a call of
  `window.ethereum.request` (lines 99, 147, 155, 174, 242) or of `provider.send`
  (line 195). -/
  | request (method : String) (params : List Param)
  /-- A call of `alert`. -/
  | alert (message : String)
  /-- A call of `console.error` with a label and the caught value. -/
  | consoleError (label : String) (error : JsError)
  /-- A call of `window.location.reload`. -/
  | reload
deriving DecidableEq, Repr

/-- The object `new ethers.providers.Web3Provider(window.ethereum)`. -/
inductive Web3Provider where
  | ofEthereum
deriving DecidableEq, Repr

/-- The object `provider.getSigner()`. -/
inductive Signer where
  | ofProvider (provider : Web3Provider)
deriving DecidableEq, Repr

/-- The object `new ethers.Contract(address, abi, signer)`. -/
structure Contract where
  address : String
  abi : List String
  signer : Signer
deriving DecidableEq, Repr

/-! ## State -/

/-- Line 61: the state variable `contractAddress`.  Its setter is called only in
`initializeContract` (lines 222-229), which nothing calls and no child receives, so
the variable holds its initial value in every render: it is a constant here. -/
def contractAddress : String := "0x2662b183bC1883e15B8E4D1E8DE1Da5ca126A626"

/-- The React state of `App` (lines 55-65, `contractAddress` apart) together with
`localStorage`, which is a list of key/value entries. -/
structure State where
  account : String
  contract : Option Contract
  provider : Option Web3Provider
  loading : Bool
  connected : Bool
  activeTab : String
  networkError : Bool
  showLanding : Bool
  showDragon : Bool
  dragonDirection : String
  localStorage : List (String × String)
deriving DecidableEq, Repr

/-- State plus the trace of effects so far (oldest first). -/
structure World where
  state : State
  trace : List Effect
deriving DecidableEq, Repr

/-- The `useState` defaults of lines 55-65 over a given `localStorage`. -/
def initialState (storage : List (String × String)) : State :=
  State.mk "" none none true false "upload" false true false "right" storage

/-- The world when the component mounts: default React state, nothing done yet. -/
def mount (storage : List (String × String)) : World :=
  World.mk (initialState storage) []

/-! ## The environment -/

/-- The wallet behind `window.ethereum`: the answer to each request method, given
the trace so far, and the `selectedAddress` property. -/
structure Wallet where
  chainId : List Effect → Except JsError String
  switchChain : List Effect → Except JsError Unit
  addChain : List Effect → Except JsError Unit
  requestAccounts : List Effect → Except JsError (List String)
  accounts : List Effect → Except JsError (List String)
  requestPermissions : List Effect → Except JsError Unit
  selectedAddress : List Effect → Option String

/-- Everything outside the component.  `ethereum` is `window.ethereum` (absent when
no wallet is installed) and `getAddress` is the answer of `signer.getAddress()`. -/
structure Env where
  ethereum : Option Wallet
  getAddress : List Effect → Except JsError String

/-! ## Primitive operations -/

/-- JavaScript truthiness of a string: every string but the empty one. -/
def truthy (s : String) : Bool := s != ""

/-- Letter-case folding used at the compare sites (`toLowerCase`): it folds the ASCII
letters and leaves every other character alone.  On ASCII strings, which hex
address strings are, it is the JavaScript function; two strings it makes equal are
equal under the JavaScript function too. -/
def toLowerCase (s : String) : String := String.mk (s.data.map Char.toLower)

/-- Model of `localStorage.getItem`: the value of the first entry with this key. -/
def getItem (key : String) (w : World) : Option String :=
  w.state.localStorage.lookup key

/-- Model of `localStorage.removeItem`: drop every entry with this key. -/
def removeItem (key : String) (w : World) : World :=
  { w with state := { w.state with
      localStorage := w.state.localStorage.filter (fun p => p.1 != key) } }

/-- Model of `localStorage.setItem`: replace the entry of this key. -/
def setItem (key value : String) (w : World) : World :=
  { w with state := { w.state with
      localStorage := (key, value) :: w.state.localStorage.filter (fun p => p.1 != key) } }

/-- Append one effect to the trace. -/
def emit (e : Effect) (w : World) : World :=
  { w with trace := w.trace ++ [e] }

def setAccount (v : String) (w : World) : World :=
  { w with state := { w.state with account := v } }

def setContract (v : Option Contract) (w : World) : World :=
  { w with state := { w.state with contract := v } }

def setProvider (v : Option Web3Provider) (w : World) : World :=
  { w with state := { w.state with provider := v } }

def setLoading (v : Bool) (w : World) : World :=
  { w with state := { w.state with loading := v } }

def setConnected (v : Bool) (w : World) : World :=
  { w with state := { w.state with connected := v } }

def setActiveTab (v : String) (w : World) : World :=
  { w with state := { w.state with activeTab := v } }

def setNetworkError (v : Bool) (w : World) : World :=
  { w with state := { w.state with networkError := v } }

def setShowLanding (v : Bool) (w : World) : World :=
  { w with state := { w.state with showLanding := v } }

/-- The value thrown by reading `.request` of an undefined `window.ethereum`. -/
def typeError : JsError := JsError.mk none "TypeError"

/-! ## Network guard (lines 145-183) -/

/-- The request of line 147. -/
def switchRequest : Effect :=
  Effect.request "wallet_switchEthereumChain" [Param.chainRef SEPOLIA_CHAIN_ID]

/-- The request of line 155. -/
def addRequest : Effect :=
  Effect.request "wallet_addEthereumChain" [Param.chainConfig SEPOLIA_CONFIG]

/-- The request of line 174. -/
def chainIdRequest : Effect := Effect.request "eth_chainId" []

/-- Lines 145-169. -/
def switchToSepolia (env : Env) (w : World) : World × Except JsError Unit :=
  match env.ethereum with
  | none =>
    -- the property access throws inside the try; the caught value has no code
    (w |> emit (Effect.consoleError "Failed to switch to Sepolia:" typeError)
       |> emit (Effect.alert "Failed to switch to Sepolia network. Please switch manually in MetaMask."),
     Except.ok ())
  | some eth =>
    let w1 := emit switchRequest w
    match eth.switchChain w.trace with
    | Except.ok _ => (setNetworkError false w1, Except.ok ())
    | Except.error switchError =>
      if switchError.code = some 4902 then
        let w2 := emit addRequest w1
        match eth.addChain w1.trace with
        | Except.ok _ => (setNetworkError false w2, Except.ok ())
        | Except.error addError =>
          (w2 |> emit (Effect.consoleError "Failed to add Sepolia network:" addError)
              |> emit (Effect.alert "Failed to add Sepolia network. Please add it manually in MetaMask."),
           Except.ok ())
      else
        (w1 |> emit (Effect.consoleError "Failed to switch to Sepolia:" switchError)
            |> emit (Effect.alert "Failed to switch to Sepolia network. Please switch manually in MetaMask."),
         Except.ok ())

/-- Lines 172-183. -/
def checkNetwork (env : Env) (w : World) : World × Except JsError Bool :=
  match env.ethereum with
  | some eth =>
    let w1 := emit chainIdRequest w
    match eth.chainId w.trace with
    | Except.error e => (w1, Except.error e)
    | Except.ok chainId =>
      if chainId != SEPOLIA_CHAIN_ID then (setNetworkError true w1, Except.ok false)
      else (setNetworkError false w1, Except.ok true)
  | none => (w, Except.ok false)

/-! ## Connection manager (lines 186-219) -/

/-- The request `provider.send("eth_requestAccounts", [])` of line 195. -/
def requestAccountsRequest : Effect := Effect.request "eth_requestAccounts" []

/-- Lines 189-192: the chain check and, on a mismatch, the switch. -/
def connectNetworkStep (env : Env) (w : World) : World × Except JsError Unit :=
  match checkNetwork env w with
  | (w1, Except.error e) => (w1, Except.error e)
  | (w1, Except.ok isCorrectNetwork) =>
    if !isCorrectNetwork then switchToSepolia env w1 else (w1, Except.ok ())

/-- Lines 207-210: the binding is built only for a truthy `contractAddress`.  The
constructor of `ethers.Contract` records its three arguments; with an address
string, the constant ABI and the signer of a `Web3Provider` it does not throw. -/
def connectContractStep (signer : Signer) (w : World) : World :=
  if truthy contractAddress then
    setContract (some (Contract.mk contractAddress CONTRACT_ABI signer)) w
  else w

/-- Lines 189-210: the body of the `try` of `connectWallet`. -/
def connectTry (env : Env) (eth : Wallet) (w : World) : World × Except JsError Unit :=
  match connectNetworkStep env w with
  | (w1, Except.error e) => (w1, Except.error e)
  | (w1, Except.ok _) =>
    let provider := Web3Provider.ofEthereum
    let w2 := emit requestAccountsRequest w1
    match eth.requestAccounts w1.trace with
    | Except.error e => (w2, Except.error e)
    | Except.ok _ =>
      let signer := Signer.ofProvider provider
      match env.getAddress w2.trace with
      | Except.error e => (w2, Except.error e)
      | Except.ok address =>
        (w2 |> setAccount address
            |> setProvider (some provider)
            |> setConnected true
            |> setItem "walletConnected" "true"
            |> setItem "connectedAccount" address
            |> connectContractStep signer,
         Except.ok ())

/-- Lines 186-219. -/
def connectWallet (env : Env) (w : World) : World × Except JsError Unit :=
  match env.ethereum with
  | some eth =>
    match connectTry env eth w with
    | (w1, Except.ok _) => (setLoading false w1, Except.ok ())
    | (w1, Except.error error) =>
      (w1 |> emit (Effect.consoleError "Failed to connect wallet:" error)
          |> emit (Effect.alert "Failed to connect wallet. Please try again.")
          |> setLoading false,
       Except.ok ())
  | none =>
    (w |> emit (Effect.alert "Please install MetaMask to use this application")
       |> setLoading false,
     Except.ok ())

/-! ## Initialisation and listeners (lines 232-287) -/

/-- The request of line 242. -/
def accountsRequest : Effect := Effect.request "eth_accounts" []

/-- The test of line 243 on the answer of `eth_accounts`. -/
def sameAccount (accounts : List String) (savedAccount : String) : Bool :=
  match accounts with
  | [] => false
  | first :: _ => toLowerCase first == toLowerCase savedAccount

/-- Lines 233-257.  A rejected `await` outside any `try` rejects `init` itself. -/
def init (env : Env) (w : World) : World × Except JsError Unit :=
  match env.ethereum with
  | some eth =>
    match checkNetwork env w with
    | (w1, Except.error e) => (w1, Except.error e)
    | (w1, Except.ok _) =>
      let wasConnected := getItem "walletConnected" w1
      let savedAccount := getItem "connectedAccount" w1
      match savedAccount with
      | some saved =>
        if wasConnected = some "true" ∧ truthy saved = true then
          let w2 := emit accountsRequest w1
          match eth.accounts w1.trace with
          | Except.error e => (w2, Except.error e)
          | Except.ok accounts =>
            if sameAccount accounts saved then
              match connectWallet env w2 with
              | (w3, Except.error e) => (w3, Except.error e)
              | (w3, Except.ok _) => (setShowLanding false w3, Except.ok ())
            else
              (w2 |> removeItem "walletConnected"
                  |> removeItem "connectedAccount"
                  |> setLoading false,
               Except.ok ())
        else (setLoading false w1, Except.ok ())
      | none => (setLoading false w1, Except.ok ())
  | none => (setLoading false w, Except.ok ())

/-- Lines 263-279: the `accountsChanged` listener. -/
def onAccountsChanged (accounts : List String) (w : World) : World :=
  match accounts with
  | [] =>
    w |> removeItem "walletConnected"
      |> removeItem "connectedAccount"
      |> setConnected false
      |> setAccount ""
      |> setContract none
      |> setShowLanding true
  | first :: _ =>
    match getItem "connectedAccount" w with
    | some savedAccount =>
      if truthy savedAccount && toLowerCase first != toLowerCase savedAccount then
        w |> setItem "connectedAccount" first |> emit Effect.reload
      else w
    | none => w

/-- Lines 281-285: the `chainChanged` listener.  The reload is the `then` callback of
the promise of `checkNetwork`, so it runs only when that promise is fulfilled. -/
def onChainChanged (env : Env) (w : World) : World × Except JsError Unit :=
  match checkNetwork env w with
  | (w1, Except.ok _) => (emit Effect.reload w1, Except.ok ())
  | (w1, Except.error e) => (w1, Except.error e)

/-! ## Logout (lines 81-106) -/

/-- The request of lines 99-102. -/
def permissionsRequest : Effect :=
  Effect.request "wallet_requestPermissions" [Param.ethAccountsPermission]

/-- Lines 84-104: the callback that `handleLogout` schedules.  A rejection of the
permissions request is swallowed by its `catch` handler. -/
def logoutCommit (env : Env) (w : World) : World × Except JsError Unit :=
  let w1 := w |> setConnected false
              |> setAccount ""
              |> setContract none
              |> setProvider none
              |> setActiveTab "upload"
              |> setShowLanding true
              |> removeItem "walletConnected"
              |> removeItem "connectedAccount"
  match env.ethereum with
  | some eth =>
    match eth.selectedAddress w1.trace with
    | some selected =>
      if truthy selected then
        match eth.requestPermissions w1.trace with
        | Except.ok _ => (emit permissionsRequest w1, Except.ok ())
        | Except.error _ => (emit permissionsRequest w1, Except.ok ())
      else (w1, Except.ok ())
    | none => (w1, Except.ok ())
  | none => (w1, Except.ok ())

/-! ## Render (lines 289-361) -/

/-- The tab panels of lines 333-351 with the props each is given. -/
inductive Panel where
  | FileUpload (account : String) (provider : Option Web3Provider) (contract : Contract)
  | FileManager (contract : Contract) (account : String)
  | PublicExplorer (contract : Contract) (account : String)
  | ShareManager (contract : Contract) (account : String)
deriving DecidableEq, Repr

/-- One child of main-content: an expression of the form
`activeTab === tab && contract && panel`, which renders the panel when both tests
pass and nothing otherwise. -/
def tabSlot (s : State) (tab : String) (panel : Contract → Panel) : List Panel :=
  if s.activeTab = tab then
    match s.contract with
    | some c => [panel c]
    | none => []
  else []

/-- Lines 331-352: the children of main-content, in order. -/
def mainContent (s : State) : List Panel :=
  tabSlot s "upload" (fun c => Panel.FileUpload s.account s.provider c)
    ++ tabSlot s "files" (fun c => Panel.FileManager c s.account)
    ++ tabSlot s "explore" (fun c => Panel.PublicExplorer c s.account)
    ++ tabSlot s "share" (fun c => Panel.ShareManager c s.account)

/-- What `App` returns. -/
inductive View where
  /-- Lines 290-297. -/
  | loadingContainer
  /-- Lines 300-302. -/
  | landingPage
  /-- Lines 309-314, with the `networkError` prop. -/
  | connectWalletScreen (networkError : Bool)
  /-- Lines 316-358: header props (account, activeTab, contractAddress,
  networkError), the panels of main-content, and the arrow animation when shown. -/
  | dashboard (account activeTab address : String) (networkError : Bool)
      (panels : List Panel) (arrow : Option String)
deriving DecidableEq, Repr

/-- Lines 289-361. -/
def render (s : State) : View :=
  if s.loading then View.loadingContainer
  else if s.showLanding then View.landingPage
  else if !s.connected then View.connectWalletScreen s.networkError
  else
    View.dashboard s.account s.activeTab contractAddress s.networkError
      (mainContent s) (if s.showDragon then some s.dragonDirection else none)

/-! ## Reading a trace -/

/-- The `params` of every request with this method in a trace, in order. -/
def requestsOf (method : String) : List Effect → List (List Param)
  | [] => []
  | Effect.request m params :: rest =>
    if m = method then params :: requestsOf method rest else requestsOf method rest
  | _ :: rest => requestsOf method rest

/-- How many times `window.location.reload` is called in a trace. -/
def reloads (trace : List Effect) : Nat := trace.count Effect.reload

/-! ## Concrete wallets used to evaluate the functions -/

/-- A rejection with the EIP-1193 code 4001, user rejected the request. -/
def userRejected : JsError := JsError.mk (some 4001) "User rejected the request."

/-- A rejection with the code 4902, unrecognised chain. -/
def unrecognisedChain : JsError := JsError.mk (some 4902) "Unrecognized chain ID."

/-- A wallet on Sepolia that approves everything and reports one account. -/
def sepoliaWallet (account : String) : Wallet :=
  Wallet.mk (fun _ => Except.ok SEPOLIA_CHAIN_ID) (fun _ => Except.ok ())
    (fun _ => Except.ok ()) (fun _ => Except.ok [account]) (fun _ => Except.ok [account])
    (fun _ => Except.ok ()) (fun _ => some account)

/-- A wallet on main net (chain id 0x1) that does not know Sepolia: the switch is
rejected with 4902 and the add-chain request is answered by `addAnswer`. -/
def mainnetWallet (account : String) (addAnswer : Except JsError Unit) : Wallet :=
  Wallet.mk (fun _ => Except.ok "0x1") (fun _ => Except.error unrecognisedChain)
    (fun _ => addAnswer) (fun _ => Except.ok [account]) (fun _ => Except.ok [account])
    (fun _ => Except.ok ()) (fun _ => some account)

/-- An environment with a wallet and a signer that yields `address`. -/
def envOf (wallet : Wallet) (address : String) : Env :=
  Env.mk (some wallet) (fun _ => Except.ok address)

/-- A rejection with the EIP-1193 code 4900, the provider is disconnected. -/
def disconnected : JsError := JsError.mk (some 4900) "The provider is disconnected from all chains."

/-- A wallet that rejects every request. -/
def offlineWallet : Wallet :=
  Wallet.mk (fun _ => Except.error disconnected) (fun _ => Except.error disconnected)
    (fun _ => Except.error disconnected) (fun _ => Except.error disconnected)
    (fun _ => Except.error disconnected) (fun _ => Except.error disconnected)
    (fun _ => none)

/-- A connected dashboard state on a given tab, with a binding. -/
def dashboardState (tab : String) : State :=
  State.mk "0xabc"
    (some (Contract.mk contractAddress CONTRACT_ABI (Signer.ofProvider Web3Provider.ofEthereum)))
    (some Web3Provider.ofEthereum) false true tab false false false "right"
    [("walletConnected", "true"), ("connectedAccount", "0xabc")]

/-- A wallet on Sepolia whose user declines the account request: it reports one
account to `eth_accounts` and rejects `eth_requestAccounts` with 4001. -/
def decliningWallet (account : String) : Wallet :=
  Wallet.mk (fun _ => Except.ok SEPOLIA_CHAIN_ID) (fun _ => Except.ok ())
    (fun _ => Except.ok ()) (fun _ => Except.error userRejected)
    (fun _ => Except.ok [account]) (fun _ => Except.ok ()) (fun _ => some account)

/-- A wallet that rejects the chain query with 4900 and reports these accounts. -/
def noChainWallet (accounts : List String) : Wallet :=
  Wallet.mk (fun _ => Except.error disconnected) (fun _ => Except.ok ())
    (fun _ => Except.ok ()) (fun _ => Except.ok accounts) (fun _ => Except.ok accounts)
    (fun _ => Except.ok ()) (fun _ => accounts.head?)

/-- The two persisted entries of a session for an account. -/
def savedSession (account : String) : List (String × String) :=
  [("walletConnected", "true"), ("connectedAccount", account)]

/-- The world in which `init` reaches the test of line 243: the chain query was
answered with `chainId` and the `eth_accounts` request has been made. -/
def initQueried (chainId : String) (w : World) : World :=
  emit accountsRequest (setNetworkError (chainId != SEPOLIA_CHAIN_ID) (emit chainIdRequest w))

/-- A wallet on main net whose user declines the switch to Sepolia with 4001 and
approves everything else. -/
def switchDecliningWallet (account : String) : Wallet :=
  Wallet.mk (fun _ => Except.ok "0x1") (fun _ => Except.error userRejected)
    (fun _ => Except.ok ()) (fun _ => Except.ok [account]) (fun _ => Except.ok [account])
    (fun _ => Except.ok ()) (fun _ => some account)

/-- Whether every character of a string is ASCII, as in a hex address string. -/
def isAscii (s : String) : Bool := s.data.all (fun c => decide (c.toNat < 128))

/-! # Theorems -/

/-! ## localStorage -/

theorem lookup_filter_self (key : String) (l : List (String × String)) :
    (l.filter (fun p => p.1 != key)).lookup key = none := by
  induction l with
  | nil => rfl
  | cons p l ih =>
    obtain ⟨k, v⟩ := p
    by_cases h : k = key
    · rw [List.filter_cons_of_neg (by simpa using h)]
      exact ih
    · rw [List.filter_cons_of_pos (by simpa using h)]
      have hk : (key == k) = false := by simpa using fun e => h e.symm
      rw [List.lookup_cons, hk]
      exact ih

theorem lookup_filter_of_ne {key other : String} (hne : other ≠ key)
    (l : List (String × String)) :
    (l.filter (fun p => p.1 != key)).lookup other = l.lookup other := by
  induction l with
  | nil => rfl
  | cons p l ih =>
    obtain ⟨k, v⟩ := p
    by_cases h : k = key
    · have hk : (other == k) = false := by simpa [h] using hne
      rw [List.filter_cons_of_neg (by simpa using h), List.lookup_cons, hk]
      exact ih
    · rw [List.filter_cons_of_pos (by simpa using h), List.lookup_cons, List.lookup_cons, ih]

theorem getItem_removeItem_self (key : String) (w : World) :
    getItem key (removeItem key w) = none := by
  simp [getItem, removeItem, lookup_filter_self]

theorem getItem_removeItem_of_ne {key other : String} (hne : other ≠ key) (w : World) :
    getItem other (removeItem key w) = getItem other w := by
  simp [getItem, removeItem, lookup_filter_of_ne hne]

theorem getItem_setItem_self (key value : String) (w : World) :
    getItem key (setItem key value w) = some value := by
  simp [getItem, setItem, List.lookup]

theorem getItem_setItem_of_ne {key other : String} (hne : other ≠ key) (value : String)
    (w : World) : getItem other (setItem key value w) = getItem other w := by
  have hk : (other == key) = false := by simpa using hne
  simp [getItem, setItem, List.lookup, hk, lookup_filter_of_ne hne]

/-! ## Network guard -/

/-- C5. When the wallet rejects the `wallet_switchEthereumChain` request of
`switchToSepolia` with code 4902: the call does not throw; the requests it makes
are the switch request followed by exactly one `wallet_addEthereumChain` request
whose single parameter is the constant descriptor `SEPOLIA_CONFIG` (chain id
0xaa36a7, name, native currency with 18 decimals, RPC endpoint, explorer URL); if
that request succeeds the state is the old one with `networkError = false` and
nothing is reported; if it fails the state is untouched, so `networkError` keeps
its value, and the failure is reported through `console.error` and `alert`. -/
theorem switchToSepolia_unrecognised_chain (env : Env) (eth : Wallet) (w : World)
    (switchError : JsError)
    (hwallet : env.ethereum = some eth)
    (hswitch : eth.switchChain w.trace = Except.error switchError)
    (hcode : switchError.code = some 4902) :
    (switchToSepolia env w).2 = Except.ok ()
    ∧ (∃ reports, (switchToSepolia env w).1.trace
          = w.trace ++ switchRequest :: addRequest :: reports
        ∧ requestsOf "wallet_addEthereumChain" (switchRequest :: addRequest :: reports)
          = [[Param.chainConfig SEPOLIA_CONFIG]])
    ∧ SEPOLIA_CONFIG = ChainConfig.mk "0xaa36a7" "Sepolia Test Network"
        (NativeCurrency.mk "SepoliaETH" "ETH" 18) ["https://sepolia.infura.io/v3/"]
        ["https://sepolia.etherscan.io/"]
    ∧ (∀ u, eth.addChain (w.trace ++ [switchRequest]) = Except.ok u →
        (switchToSepolia env w).1.state = { w.state with networkError := false }
        ∧ (switchToSepolia env w).1.trace = w.trace ++ [switchRequest, addRequest])
    ∧ (∀ addError, eth.addChain (w.trace ++ [switchRequest]) = Except.error addError →
        (switchToSepolia env w).1.state = w.state
        ∧ (switchToSepolia env w).1.trace = w.trace ++
            [switchRequest, addRequest,
             Effect.consoleError "Failed to add Sepolia network:" addError,
             Effect.alert "Failed to add Sepolia network. Please add it manually in MetaMask."]) := by
  cases hadd : eth.addChain (w.trace ++ [switchRequest]) with
  | ok u =>
    simp only [switchToSepolia, hwallet, hswitch, hcode, emit, hadd, if_true]
    simp [setNetworkError, requestsOf, switchRequest, addRequest, SEPOLIA_CONFIG,
      SEPOLIA_CHAIN_ID]
  | error addError =>
    simp only [switchToSepolia, hwallet, hswitch, hcode, emit, hadd, if_true]
    simp [setNetworkError, requestsOf, switchRequest, addRequest, SEPOLIA_CONFIG,
      SEPOLIA_CHAIN_ID]

/-- C5, evaluated: a wallet on main net that does not know Sepolia and whose user
declines the add-chain request. The flag and the rest of the state are untouched
and the trace is the two requests followed by the two reports. -/
theorem switchToSepolia_unrecognised_chain_witness :
    (mainnetWallet "0xabc" (Except.error userRejected)).switchChain (mount []).trace
      = Except.error unrecognisedChain
    ∧ unrecognisedChain.code = some 4902
    ∧ (switchToSepolia (envOf (mainnetWallet "0xabc" (Except.error userRejected)) "0xabc")
        (mount [])).1.state = (mount []).state
    ∧ (switchToSepolia (envOf (mainnetWallet "0xabc" (Except.error userRejected)) "0xabc")
        (mount [])).1.trace = (mount []).trace ++
          [switchRequest, addRequest,
           Effect.consoleError "Failed to add Sepolia network:" userRejected,
           Effect.alert "Failed to add Sepolia network. Please add it manually in MetaMask."] :=
  ⟨rfl, rfl,
   (switchToSepolia_unrecognised_chain
      (envOf (mainnetWallet "0xabc" (Except.error userRejected)) "0xabc")
      (mainnetWallet "0xabc" (Except.error userRejected)) (mount []) unrecognisedChain
      rfl rfl rfl).2.2.2.2 userRejected rfl⟩

/-- C7 as stated fails: when the wallet rejects the `eth_chainId` request of the
re-check, the promise of `checkNetwork` is rejected, the `then` callback never
runs, and no reload is issued. -/
theorem onChainChanged_rejected_query_no_reload :
    (onChainChanged (envOf offlineWallet "0xabc") (mount [])).1.trace = [chainIdRequest]
    ∧ reloads (onChainChanged (envOf offlineWallet "0xabc") (mount [])).1.trace = 0
    ∧ (onChainChanged (envOf offlineWallet "0xabc") (mount [])).2 = Except.error disconnected
    ∧ ¬ (∀ (env : Env) (w : World), env.ethereum.isSome = true →
          reloads ((onChainChanged env w).1.trace.drop w.trace.length) = 1) := by
  refine ⟨by decide, by decide, rfl, fun h => ?_⟩
  have h1 := h (envOf offlineWallet "0xabc") (mount []) rfl
  revert h1
  decide

/-- C7, amended. Whenever the chain query of the re-check is answered, whether or not
the reported chain is Sepolia, the `chainChanged` listener makes exactly one
`eth_chainId` request and then issues exactly one reload: these two effects, in this
order, are all it adds to the trace. The mismatch flag is set from the answer. -/
theorem onChainChanged_one_check_then_reload (env : Env) (eth : Wallet) (w : World)
    (chainId : String)
    (hwallet : env.ethereum = some eth)
    (hchain : eth.chainId w.trace = Except.ok chainId) :
    (onChainChanged env w).2 = Except.ok ()
    ∧ (onChainChanged env w).1.trace = w.trace ++ [chainIdRequest, Effect.reload]
    ∧ requestsOf "eth_chainId" ((onChainChanged env w).1.trace.drop w.trace.length) = [[]]
    ∧ reloads ((onChainChanged env w).1.trace.drop w.trace.length) = 1
    ∧ (onChainChanged env w).1.state
        = { w.state with networkError := chainId != SEPOLIA_CHAIN_ID } := by
  by_cases hc : chainId = SEPOLIA_CHAIN_ID
  · simp [onChainChanged, checkNetwork, hwallet, hchain, hc, emit, setNetworkError,
      requestsOf, reloads, chainIdRequest]
  · simp [onChainChanged, checkNetwork, hwallet, hchain, hc, emit, setNetworkError,
      requestsOf, reloads, chainIdRequest]

/-- C7 amended, evaluated: a wallet that reports main net. -/
theorem onChainChanged_one_check_then_reload_witness :
    (onChainChanged (envOf (mainnetWallet "0xabc" (Except.ok ())) "0xabc") (mount [])).1.trace
      = [chainIdRequest, Effect.reload]
    ∧ (onChainChanged (envOf (mainnetWallet "0xabc" (Except.ok ())) "0xabc")
        (mount [])).1.state.networkError = true := by
  have h := onChainChanged_one_check_then_reload
    (envOf (mainnetWallet "0xabc" (Except.ok ())) "0xabc")
    (mainnetWallet "0xabc" (Except.ok ())) (mount []) "0x1" rfl rfl
  exact ⟨h.2.1, by rw [h.2.2.2.2]; decide⟩

/-! ## Listeners and logout -/

/-- C9. From every prior state, the `accountsChanged` listener called with an empty
address list removes both persisted entries and leaves `connected = false`,
`account = ""`, `contract = null` and `showLanding = true`; it adds nothing to the
trace, so it issues no reload. -/
theorem onAccountsChanged_empty (w : World) :
    getItem "walletConnected" (onAccountsChanged [] w) = none
    ∧ getItem "connectedAccount" (onAccountsChanged [] w) = none
    ∧ (onAccountsChanged [] w).state.connected = false
    ∧ (onAccountsChanged [] w).state.account = ""
    ∧ (onAccountsChanged [] w).state.contract = none
    ∧ (onAccountsChanged [] w).state.showLanding = true
    ∧ (onAccountsChanged [] w).trace = w.trace
    ∧ reloads ((onAccountsChanged [] w).trace.drop w.trace.length) = 0 := by
  have h1 : getItem "walletConnected" (onAccountsChanged [] w) = none := by
    have hne : ("walletConnected" : String) ≠ "connectedAccount" := by decide
    have := getItem_removeItem_of_ne hne (removeItem "walletConnected" w)
    rw [getItem_removeItem_self] at this
    simpa [onAccountsChanged, getItem, removeItem, setConnected, setAccount, setContract,
      setShowLanding] using this
  have h2 : getItem "connectedAccount" (onAccountsChanged [] w) = none := by
    have := getItem_removeItem_self "connectedAccount" (removeItem "walletConnected" w)
    simpa [onAccountsChanged, getItem, removeItem, setConnected, setAccount, setContract,
      setShowLanding] using this
  refine ⟨h1, h2, rfl, rfl, rfl, rfl, rfl, ?_⟩
  simp [onAccountsChanged, removeItem, setConnected, setAccount, setContract,
    setShowLanding, reloads]

/-- The state after the logout commit does not depend on the wallet. -/
theorem logoutCommit_state (env : Env) (w : World) :
    (logoutCommit env w).1.state =
      { w.state with
        connected := false, account := "", contract := none, provider := none,
        activeTab := "upload", showLanding := true,
        localStorage := (w.state.localStorage.filter (fun p => p.1 != "walletConnected")).filter
          (fun p => p.1 != "connectedAccount") } := by
  unfold logoutCommit
  cases env.ethereum with
  | none => rfl
  | some eth =>
    simp only []
    split
    · split
      · split <;> rfl
      · rfl
    · rfl

/-- The logout commit never throws. -/
theorem logoutCommit_ok (env : Env) (w : World) : (logoutCommit env w).2 = Except.ok () := by
  unfold logoutCommit
  cases env.ethereum with
  | none => rfl
  | some eth =>
    simp only []
    split
    · split
      · split <;> rfl
      · rfl
    · rfl

/-- C8. The state commit that `handleLogout` schedules is idempotent on the state
(React state and `localStorage`): from every world, running it twice leaves the same
state as running it once, neither run throws, and that state has both persisted
entries absent, `connected = false`, `account = ""`, `contract = null`,
`provider = null`, `activeTab = "upload"` and `showLanding = true`. -/
theorem logoutCommit_idempotent (env : Env) (w : World) :
    (logoutCommit env w).2 = Except.ok ()
    ∧ (logoutCommit env (logoutCommit env w).1).2 = Except.ok ()
    ∧ (logoutCommit env (logoutCommit env w).1).1.state = (logoutCommit env w).1.state
    ∧ getItem "walletConnected" (logoutCommit env w).1 = none
    ∧ getItem "connectedAccount" (logoutCommit env w).1 = none
    ∧ (logoutCommit env w).1.state.connected = false
    ∧ (logoutCommit env w).1.state.account = ""
    ∧ (logoutCommit env w).1.state.contract = none
    ∧ (logoutCommit env w).1.state.provider = none
    ∧ (logoutCommit env w).1.state.activeTab = "upload"
    ∧ (logoutCommit env w).1.state.showLanding = true := by
  refine ⟨logoutCommit_ok env w, logoutCommit_ok env _, ?_, ?_, ?_, ?_, ?_, ?_, ?_, ?_, ?_⟩
  · rw [logoutCommit_state env (logoutCommit env w).1, logoutCommit_state env w]
    simp only [List.filter_filter]
    congr 1
    apply List.filter_congr
    intro a _
    cases (a.1 != "connectedAccount") <;> cases (a.1 != "walletConnected") <;> rfl
  · have hne : ("walletConnected" : String) ≠ "connectedAccount" := by decide
    simp only [getItem, logoutCommit_state]
    rw [lookup_filter_of_ne hne, lookup_filter_self]
  · simp only [getItem, logoutCommit_state]
    rw [lookup_filter_self]
  all_goals simp [logoutCommit_state]

/-! ## Render -/

/-- C10. In the connected view the panels of main-content are decided by `activeTab`
and the binding: with a binding present and `activeTab` one of upload, files,
explore, share, exactly one panel is rendered, the one of that tab, with the current
account and the binding as props; with no binding, or with any other `activeTab`,
no panel is rendered. -/
theorem mainContent_one_panel (s : State) :
    (s.loading = false → s.showLanding = false → s.connected = true →
      render s = View.dashboard s.account s.activeTab contractAddress s.networkError
        (mainContent s) (if s.showDragon then some s.dragonDirection else none))
    ∧ (∀ c, s.contract = some c →
        (s.activeTab = "upload" → mainContent s = [Panel.FileUpload s.account s.provider c])
        ∧ (s.activeTab = "files" → mainContent s = [Panel.FileManager c s.account])
        ∧ (s.activeTab = "explore" → mainContent s = [Panel.PublicExplorer c s.account])
        ∧ (s.activeTab = "share" → mainContent s = [Panel.ShareManager c s.account]))
    ∧ (s.contract = none → mainContent s = [])
    ∧ (s.activeTab ≠ "upload" → s.activeTab ≠ "files" → s.activeTab ≠ "explore" →
        s.activeTab ≠ "share" → mainContent s = []) := by
  refine ⟨?_, ?_, ?_, ?_⟩
  · intro h1 h2 h3
    simp [render, h1, h2, h3]
  · intro c hc
    refine ⟨?_, ?_, ?_, ?_⟩ <;> intro ht <;> simp [mainContent, tabSlot, hc, ht]
  · intro hc
    simp [mainContent, tabSlot, hc]
  · intro h1 h2 h3 h4
    simp [mainContent, tabSlot, h1, h2, h3, h4]

/-! ## Frame lemmas -/

@[simp] theorem emit_trace (e : Effect) (w : World) : (emit e w).trace = w.trace ++ [e] := rfl

@[simp] theorem emit_state (e : Effect) (w : World) : (emit e w).state = w.state := rfl

@[simp] theorem setNetworkError_trace (b : Bool) (w : World) :
    (setNetworkError b w).trace = w.trace := rfl

@[simp] theorem setLoading_trace (b : Bool) (w : World) : (setLoading b w).trace = w.trace := rfl

@[simp] theorem setShowLanding_trace (b : Bool) (w : World) :
    (setShowLanding b w).trace = w.trace := rfl

@[simp] theorem getItem_emit (key : String) (e : Effect) (w : World) :
    getItem key (emit e w) = getItem key w := rfl

@[simp] theorem getItem_setNetworkError (key : String) (b : Bool) (w : World) :
    getItem key (setNetworkError b w) = getItem key w := rfl

@[simp] theorem getItem_setLoading (key : String) (b : Bool) (w : World) :
    getItem key (setLoading b w) = getItem key w := rfl

@[simp] theorem getItem_setShowLanding (key : String) (b : Bool) (w : World) :
    getItem key (setShowLanding b w) = getItem key w := rfl

@[simp] theorem getItem_setContract (key : String) (c : Option Contract) (w : World) :
    getItem key (setContract c w) = getItem key w := rfl

/-- An answered chain query sets the flag from the answer. -/
theorem checkNetwork_answered {env : Env} {eth : Wallet} {w : World} {chainId : String}
    (hwallet : env.ethereum = some eth) (hchain : eth.chainId w.trace = Except.ok chainId) :
    checkNetwork env w
      = (setNetworkError (chainId != SEPOLIA_CHAIN_ID) (emit chainIdRequest w),
         Except.ok (chainId == SEPOLIA_CHAIN_ID)) := by
  by_cases hc : chainId = SEPOLIA_CHAIN_ID
  · simp [checkNetwork, hwallet, hchain, hc]
  · have hb : (chainId != SEPOLIA_CHAIN_ID) = true := by simpa using hc
    simp [checkNetwork, hwallet, hchain, hc, hb]

/-- A rejected chain query rejects `checkNetwork` and touches no state. -/
theorem checkNetwork_rejected {env : Env} {eth : Wallet} {w : World} {e : JsError}
    (hwallet : env.ethereum = some eth) (hchain : eth.chainId w.trace = Except.error e) :
    checkNetwork env w = (emit chainIdRequest w, Except.error e) := by
  simp [checkNetwork, hwallet, hchain]

/-- `switchToSepolia` never throws and changes no state but the mismatch flag. -/
theorem switchToSepolia_frame (env : Env) (w : World) :
    (switchToSepolia env w).2 = Except.ok ()
    ∧ ∃ b, (switchToSepolia env w).1.state = { w.state with networkError := b } := by
  unfold switchToSepolia
  cases env.ethereum with
  | none => exact ⟨rfl, w.state.networkError, rfl⟩
  | some eth =>
    simp only []
    split
    · exact ⟨rfl, false, rfl⟩
    · split
      · split
        · exact ⟨rfl, false, rfl⟩
        · exact ⟨rfl, w.state.networkError, rfl⟩
      · exact ⟨rfl, w.state.networkError, rfl⟩

/-- A failed switch (rejected, or chain unknown and the add-chain request rejected)
leaves the whole state as it was. -/
theorem switchToSepolia_failed {env : Env} {eth : Wallet} {w : World} {switchError : JsError}
    (hwallet : env.ethereum = some eth)
    (hswitch : eth.switchChain w.trace = Except.error switchError)
    (hadd : switchError.code = some 4902 →
      ∃ addError, eth.addChain (w.trace ++ [switchRequest]) = Except.error addError) :
    (switchToSepolia env w).1.state = w.state := by
  by_cases hcode : switchError.code = some 4902
  · obtain ⟨addError, h⟩ := hadd hcode
    simp only [switchToSepolia, hwallet, hswitch, hcode, emit, h, if_true]
  · simp only [switchToSepolia, hwallet, hswitch, hcode, emit, if_false]

/-- `checkNetwork` changes no state but the mismatch flag. -/
theorem checkNetwork_frame (env : Env) (w : World) :
    ∃ b, (checkNetwork env w).1.state = { w.state with networkError := b } := by
  unfold checkNetwork
  cases env.ethereum with
  | none => exact ⟨w.state.networkError, rfl⟩
  | some eth =>
    simp only []
    cases eth.chainId w.trace with
    | error e => exact ⟨w.state.networkError, rfl⟩
    | ok chainId =>
      simp only []
      split
      · exact ⟨true, rfl⟩
      · exact ⟨false, rfl⟩

/-- The network step of `connectWallet` changes no state but the mismatch flag. -/
theorem connectNetworkStep_frame (env : Env) (w : World) :
    ∃ b, (connectNetworkStep env w).1.state = { w.state with networkError := b } := by
  obtain ⟨b0, h0⟩ := checkNetwork_frame env w
  unfold connectNetworkStep
  rcases hcn : checkNetwork env w with ⟨w1, r⟩
  rw [hcn] at h0
  cases r with
  | error e => exact ⟨b0, h0⟩
  | ok isCorrectNetwork =>
    cases isCorrectNetwork with
    | true => exact ⟨b0, h0⟩
    | false =>
      obtain ⟨b, h⟩ := (switchToSepolia_frame env w1).2
      refine ⟨b, ?_⟩
      simp only [Bool.not_false, if_true]
      rw [h]
      simp only [] at h0
      rw [h0]

/-! ## The paths of `connectWallet` -/

/-- A chain query answered with the expected id: no switch is attempted. -/
theorem connectNetworkStep_expected {env : Env} {eth : Wallet} {w : World}
    (hwallet : env.ethereum = some eth)
    (hchain : eth.chainId w.trace = Except.ok SEPOLIA_CHAIN_ID) :
    connectNetworkStep env w = (setNetworkError false (emit chainIdRequest w), Except.ok ()) := by
  simp [connectNetworkStep, checkNetwork_answered hwallet hchain]

/-- A rejected chain query ends the network step with that rejection. -/
theorem connectNetworkStep_rejected {env : Env} {eth : Wallet} {w : World} {e : JsError}
    (hwallet : env.ethereum = some eth) (hchain : eth.chainId w.trace = Except.error e) :
    connectNetworkStep env w = (emit chainIdRequest w, Except.error e) := by
  simp [connectNetworkStep, checkNetwork_rejected hwallet hchain]

/-- The world `connectWallet` leaves when its `try` throws `e` in world `w1`. -/
theorem connectWallet_of_network_error {env : Env} {eth : Wallet} {w w1 : World} {e : JsError}
    (hwallet : env.ethereum = some eth)
    (hnet : connectNetworkStep env w = (w1, Except.error e)) :
    connectWallet env w
      = (w1 |> emit (Effect.consoleError "Failed to connect wallet:" e)
            |> emit (Effect.alert "Failed to connect wallet. Please try again.")
            |> setLoading false,
         Except.ok ()) := by
  simp [connectWallet, hwallet, connectTry, hnet]

theorem connectWallet_of_accounts_error {env : Env} {eth : Wallet} {w w1 : World}
    {e : JsError}
    (hwallet : env.ethereum = some eth)
    (hnet : connectNetworkStep env w = (w1, Except.ok ()))
    (haccounts : eth.requestAccounts w1.trace = Except.error e) :
    connectWallet env w
      = (emit requestAccountsRequest w1
            |> emit (Effect.consoleError "Failed to connect wallet:" e)
            |> emit (Effect.alert "Failed to connect wallet. Please try again.")
            |> setLoading false,
         Except.ok ()) := by
  simp [connectWallet, hwallet, connectTry, hnet, haccounts]

theorem connectWallet_of_address_error {env : Env} {eth : Wallet} {w w1 : World}
    {accounts : List String} {e : JsError}
    (hwallet : env.ethereum = some eth)
    (hnet : connectNetworkStep env w = (w1, Except.ok ()))
    (haccounts : eth.requestAccounts w1.trace = Except.ok accounts)
    (haddress : env.getAddress (w1.trace ++ [requestAccountsRequest]) = Except.error e) :
    connectWallet env w
      = (emit requestAccountsRequest w1
            |> emit (Effect.consoleError "Failed to connect wallet:" e)
            |> emit (Effect.alert "Failed to connect wallet. Please try again.")
            |> setLoading false,
         Except.ok ()) := by
  simp [connectWallet, hwallet, connectTry, hnet, haccounts, haddress]

/-- The world `connectWallet` leaves once the signer has yielded `address`: lines
199-210 applied after the account request, then `loading` cleared. -/
theorem connectWallet_of_address {env : Env} {eth : Wallet} {w w1 : World}
    {accounts : List String} {address : String}
    (hwallet : env.ethereum = some eth)
    (hnet : connectNetworkStep env w = (w1, Except.ok ()))
    (haccounts : eth.requestAccounts w1.trace = Except.ok accounts)
    (haddress : env.getAddress (w1.trace ++ [requestAccountsRequest]) = Except.ok address) :
    connectWallet env w =
      (emit requestAccountsRequest w1
          |> setAccount address
          |> setProvider (some Web3Provider.ofEthereum)
          |> setConnected true
          |> setItem "walletConnected" "true"
          |> setItem "connectedAccount" address
          |> connectContractStep (Signer.ofProvider Web3Provider.ofEthereum)
          |> setLoading false,
       Except.ok ()) := by
  simp [connectWallet, hwallet, connectTry, hnet, haccounts, haddress]

/-- The contract step sets the binding to the configured address and nothing else. -/
theorem connectContractStep_eq (signer : Signer) (w : World) :
    connectContractStep signer w
      = setContract (some (Contract.mk contractAddress CONTRACT_ABI signer)) w := by
  have ht : truthy contractAddress = true := by decide
  simp [connectContractStep, ht]

/-- Once the signer has yielded `address`, the call ends with the session persisted
for `address`, `connected = true`, `account = address`, `loading = false`, the
binding to the configured address set, and the mismatch flag as the network step
left it. -/
theorem connectWallet_connected {env : Env} {eth : Wallet} {w w1 : World}
    {accounts : List String} {address : String}
    (hwallet : env.ethereum = some eth)
    (hnet : connectNetworkStep env w = (w1, Except.ok ()))
    (haccounts : eth.requestAccounts w1.trace = Except.ok accounts)
    (haddress : env.getAddress (w1.trace ++ [requestAccountsRequest]) = Except.ok address) :
    (connectWallet env w).2 = Except.ok ()
    ∧ getItem "walletConnected" (connectWallet env w).1 = some "true"
    ∧ getItem "connectedAccount" (connectWallet env w).1 = some address
    ∧ (connectWallet env w).1.state.connected = true
    ∧ (connectWallet env w).1.state.account = address
    ∧ (connectWallet env w).1.state.loading = false
    ∧ (connectWallet env w).1.state.networkError = w1.state.networkError
    ∧ (connectWallet env w).1.state.contract
        = some (Contract.mk contractAddress CONTRACT_ABI
            (Signer.ofProvider Web3Provider.ofEthereum)) := by
  rw [connectWallet_of_address hwallet hnet haccounts haddress, connectContractStep_eq]
  have hne : ("walletConnected" : String) ≠ "connectedAccount" := by decide
  refine ⟨rfl, ?_, ?_, rfl, rfl, rfl, rfl, rfl⟩
  · simp only [getItem_setLoading, getItem_setContract]
    rw [getItem_setItem_of_ne hne, getItem_setItem_self]
  · simp only [getItem_setLoading, getItem_setContract]
    rw [getItem_setItem_self]

/-- The `try` of `connectWallet` throws exactly when the chain query is rejected, the
account request is rejected, or the signer fails to yield an address. -/
theorem connectTry_error_iff (env : Env) (eth : Wallet) (w : World) (e : JsError)
    (hwallet : env.ethereum = some eth) :
    (connectTry env eth w).2 = Except.error e ↔
      (eth.chainId w.trace = Except.error e
        ∨ ∃ w1, connectNetworkStep env w = (w1, Except.ok ())
            ∧ (eth.requestAccounts w1.trace = Except.error e
                ∨ (∃ accounts, eth.requestAccounts w1.trace = Except.ok accounts)
                    ∧ env.getAddress (w1.trace ++ [requestAccountsRequest])
                        = Except.error e)) := by
  constructor
  · intro h
    cases hchain : eth.chainId w.trace with
    | error e0 =>
      have hnet := connectNetworkStep_rejected hwallet hchain
      simp [connectTry, hnet] at h
      exact Or.inl (by rw [h])
    | ok chainId =>
      right
      have hnet : ∃ w1, connectNetworkStep env w = (w1, Except.ok ()) := by
        by_cases hc : chainId = SEPOLIA_CHAIN_ID
        · exact ⟨_, connectNetworkStep_expected hwallet (by rw [hchain, hc])⟩
        · have hb2 : (chainId == SEPOLIA_CHAIN_ID) = false := by simpa using hc
          refine ⟨(switchToSepolia env (setNetworkError (chainId != SEPOLIA_CHAIN_ID)
            (emit chainIdRequest w))).1, ?_⟩
          have hok := (switchToSepolia_frame env (setNetworkError (chainId != SEPOLIA_CHAIN_ID)
            (emit chainIdRequest w))).1
          simp only [connectNetworkStep, checkNetwork_answered hwallet hchain, hb2,
            Bool.not_false, if_true]
          exact Prod.ext rfl hok
      obtain ⟨w1, hnet⟩ := hnet
      refine ⟨w1, hnet, ?_⟩
      cases hacc : eth.requestAccounts w1.trace with
      | error e0 =>
        simp [connectTry, hnet, hacc] at h
        exact Or.inl (by rw [h])
      | ok accounts =>
        cases haddr : env.getAddress (w1.trace ++ [requestAccountsRequest]) with
        | error e0 =>
          simp [connectTry, hnet, hacc, haddr] at h
          exact Or.inr ⟨⟨accounts, rfl⟩, by rw [h]⟩
        | ok a =>
          simp [connectTry, hnet, hacc, haddr] at h
  · intro h
    rcases h with hchain | ⟨w1, hnet, hacc | ⟨⟨accounts, hacc⟩, haddr⟩⟩
    · simp [connectTry, connectNetworkStep_rejected hwallet hchain]
    · simp [connectTry, hnet, hacc]
    · simp [connectTry, hnet, hacc, haddr]

/-! ## Connection manager -/

/-- C1. With a wallet present, the chain query answered with the expected chain id
0xaa36a7, the account request approved and the signer yielding address `a`, from
every starting world: `connectWallet` does not throw, persists
`walletConnected = "true"` and `connectedAccount = a` (the string the signer
returned, unchanged), leaves `connected = true`, `account = a` and
`loading = false`, and sets `contract` to the binding to the configured contract
address, with the ABI and the signer. The mismatch flag is cleared. -/
theorem connectWallet_success (env : Env) (eth : Wallet) (w : World)
    (accounts : List String) (a : String)
    (hwallet : env.ethereum = some eth)
    (hchain : eth.chainId w.trace = Except.ok SEPOLIA_CHAIN_ID)
    (haccounts : eth.requestAccounts (w.trace ++ [chainIdRequest]) = Except.ok accounts)
    (haddress : env.getAddress (w.trace ++ [chainIdRequest, requestAccountsRequest])
      = Except.ok a) :
    (connectWallet env w).2 = Except.ok ()
    ∧ getItem "walletConnected" (connectWallet env w).1 = some "true"
    ∧ getItem "connectedAccount" (connectWallet env w).1 = some a
    ∧ (connectWallet env w).1.state.connected = true
    ∧ (connectWallet env w).1.state.account = a
    ∧ (connectWallet env w).1.state.contract
        = some (Contract.mk contractAddress CONTRACT_ABI
            (Signer.ofProvider Web3Provider.ofEthereum))
    ∧ contractAddress = "0x2662b183bC1883e15B8E4D1E8DE1Da5ca126A626"
    ∧ (connectWallet env w).1.state.loading = false
    ∧ (connectWallet env w).1.state.networkError = false := by
  have hnet := connectNetworkStep_expected hwallet hchain
  have hacc : eth.requestAccounts (setNetworkError false (emit chainIdRequest w)).trace
      = Except.ok accounts := by simpa using haccounts
  have haddr : env.getAddress
      ((setNetworkError false (emit chainIdRequest w)).trace ++ [requestAccountsRequest])
      = Except.ok a := by simpa using haddress
  obtain ⟨h1, h2, h3, h4, h5, h6, h7, h8⟩ := connectWallet_connected hwallet hnet hacc haddr
  exact ⟨h1, h2, h3, h4, h5, h8, rfl, h6, h7⟩

/-- C1, evaluated: a fresh visit (no persisted session, default React state) with a
wallet on Sepolia that approves and a signer that yields 0xAbC. -/
theorem connectWallet_success_witness :
    getItem "walletConnected" (mount []) = none
    ∧ getItem "walletConnected" (connectWallet (envOf (sepoliaWallet "0xabc") "0xAbC") (mount [])).1
        = some "true"
    ∧ getItem "connectedAccount" (connectWallet (envOf (sepoliaWallet "0xabc") "0xAbC") (mount [])).1
        = some "0xAbC"
    ∧ (connectWallet (envOf (sepoliaWallet "0xabc") "0xAbC") (mount [])).1.state.connected = true
    ∧ (connectWallet (envOf (sepoliaWallet "0xabc") "0xAbC") (mount [])).1.state.contract
        = some (Contract.mk "0x2662b183bC1883e15B8E4D1E8DE1Da5ca126A626" CONTRACT_ABI
            (Signer.ofProvider Web3Provider.ofEthereum)) := by
  have h := connectWallet_success (envOf (sepoliaWallet "0xabc") "0xAbC")
    (sepoliaWallet "0xabc") (mount []) ["0xabc"] "0xAbC" rfl rfl rfl rfl
  exact ⟨rfl, h.2.1, h.2.2.1, h.2.2.2.1, h.2.2.2.2.2.1⟩

/-- C2. With no wallet, `connectWallet` alerts that MetaMask must be installed and
changes nothing but `loading`, so no session is created. With a wallet, whenever a
step of the connect fails, that is, the `try` of lines 188-210 throws a value `e`
(the steps that can are the chain query, the account request and deriving the
address; building the binding does not throw): the call does not throw, it reports
`e` through `console.error` and alerts the user, and `localStorage` (hence both
persisted entries), `connected`, `account`, `contract` and `provider` are the same
after the call as before it. -/
theorem connectWallet_failure_keeps_session (env : Env) (w : World) :
    (env.ethereum = none →
      (connectWallet env w).2 = Except.ok ()
      ∧ (connectWallet env w).1.state = { w.state with loading := false }
      ∧ (connectWallet env w).1.trace
          = w.trace ++ [Effect.alert "Please install MetaMask to use this application"])
    ∧ (∀ (eth : Wallet) (e : JsError), env.ethereum = some eth →
        (connectTry env eth w).2 = Except.error e →
        (connectWallet env w).2 = Except.ok ()
        ∧ (∃ before, (connectWallet env w).1.trace = before ++
            [Effect.consoleError "Failed to connect wallet:" e,
             Effect.alert "Failed to connect wallet. Please try again."])
        ∧ (connectWallet env w).1.state.localStorage = w.state.localStorage
        ∧ getItem "walletConnected" (connectWallet env w).1 = getItem "walletConnected" w
        ∧ getItem "connectedAccount" (connectWallet env w).1 = getItem "connectedAccount" w
        ∧ (connectWallet env w).1.state.connected = w.state.connected
        ∧ (connectWallet env w).1.state.account = w.state.account
        ∧ (connectWallet env w).1.state.contract = w.state.contract
        ∧ (connectWallet env w).1.state.provider = w.state.provider
        ∧ (connectWallet env w).1.state.loading = false)
    ∧ (∀ (eth : Wallet) (e : JsError), env.ethereum = some eth →
        ((connectTry env eth w).2 = Except.error e ↔
          (eth.chainId w.trace = Except.error e
            ∨ ∃ w1, connectNetworkStep env w = (w1, Except.ok ())
                ∧ (eth.requestAccounts w1.trace = Except.error e
                    ∨ (∃ accounts, eth.requestAccounts w1.trace = Except.ok accounts)
                        ∧ env.getAddress (w1.trace ++ [requestAccountsRequest])
                            = Except.error e)))) := by
  refine ⟨?_, ?_, fun eth e hwallet => connectTry_error_iff env eth w e hwallet⟩
  · intro hnone
    simp [connectWallet, hnone, setLoading, emit]
  · intro eth e hwallet hthrow
    have hfail := (connectTry_error_iff env eth w e hwallet).1 hthrow
    obtain ⟨b, hframe⟩ := connectNetworkStep_frame env w
    rcases hfail with hchain | ⟨w1, hnet, haccounts | ⟨⟨accounts, haccounts⟩, haddress⟩⟩
    · have hnet := connectNetworkStep_rejected hwallet hchain
      rw [connectWallet_of_network_error hwallet hnet]
      exact ⟨rfl, ⟨w.trace ++ [chainIdRequest], by simp [setLoading, emit]⟩,
        rfl, rfl, rfl, rfl, rfl, rfl, rfl, rfl⟩
    · rw [hnet] at hframe
      rw [connectWallet_of_accounts_error hwallet hnet haccounts]
      simp only [] at hframe
      refine ⟨rfl, ⟨w1.trace ++ [requestAccountsRequest], by simp [setLoading, emit]⟩,
        ?_, ?_, ?_, ?_, ?_, ?_, ?_, rfl⟩
      all_goals simp [getItem, setLoading, emit, hframe]
    · rw [hnet] at hframe
      rw [connectWallet_of_address_error hwallet hnet haccounts haddress]
      simp only [] at hframe
      refine ⟨rfl, ⟨w1.trace ++ [requestAccountsRequest], by simp [setLoading, emit]⟩,
        ?_, ?_, ?_, ?_, ?_, ?_, ?_, rfl⟩
      all_goals simp [getItem, setLoading, emit, hframe]

/-- C2, evaluated: a persisted session for 0xdef, and a wallet whose user declines
the account request. The `try` throws the rejection, and the session is the one
persisted before. -/
theorem connectWallet_failure_keeps_session_witness :
    (connectTry (envOf (decliningWallet "0xabc") "0xabc") (decliningWallet "0xabc")
        (mount (savedSession "0xdef"))).2 = Except.error userRejected
    ∧ (connectWallet (envOf (decliningWallet "0xabc") "0xabc") (mount (savedSession "0xdef"))).1.state.localStorage
        = savedSession "0xdef"
    ∧ (connectWallet (envOf (decliningWallet "0xabc") "0xabc") (mount (savedSession "0xdef"))).1.state.connected
        = false :=
  have h := (connectWallet_failure_keeps_session (envOf (decliningWallet "0xabc") "0xabc")
    (mount (savedSession "0xdef"))).2.1 (decliningWallet "0xabc") userRejected rfl rfl
  ⟨rfl, h.2.2.1, h.2.2.2.2.2.1⟩

/-- The network step under a mismatch and a failed switch: it does not throw and
changes nothing but the flag, which it leaves set. -/
theorem connectNetworkStep_switch_failed {env : Env} {eth : Wallet} {w : World}
    {chainId : String} {switchError : JsError}
    (hwallet : env.ethereum = some eth)
    (hchain : eth.chainId w.trace = Except.ok chainId)
    (hmismatch : chainId ≠ SEPOLIA_CHAIN_ID)
    (hswitch : eth.switchChain (w.trace ++ [chainIdRequest]) = Except.error switchError)
    (hadd : switchError.code = some 4902 →
      ∃ addError, eth.addChain (w.trace ++ [chainIdRequest, switchRequest])
        = Except.error addError) :
    ∃ w1, connectNetworkStep env w = (w1, Except.ok ())
      ∧ w1.state = { w.state with networkError := true } := by
  have hb : (chainId != SEPOLIA_CHAIN_ID) = true := by simpa using hmismatch
  have hb2 : (chainId == SEPOLIA_CHAIN_ID) = false := by simpa using hmismatch
  have hstep : connectNetworkStep env w
      = switchToSepolia env (setNetworkError true (emit chainIdRequest w)) := by
    simp [connectNetworkStep, checkNetwork_answered hwallet hchain, hb, hb2]
  have hfailed := switchToSepolia_failed (w := setNetworkError true (emit chainIdRequest w))
    hwallet (by simpa using hswitch) (by simpa using hadd)
  have hok := (switchToSepolia_frame env (setNetworkError true (emit chainIdRequest w))).1
  refine ⟨(switchToSepolia env (setNetworkError true (emit chainIdRequest w))).1, ?_, ?_⟩
  · rw [hstep]
    exact Prod.ext rfl hok
  · rw [hfailed]
    rfl

/-- C6 as stated fails: the connect goes on after a failed switch. With a wallet on
main net that does not know Sepolia and whose user declines the add-chain request
but approves the account request, `connectWallet` ends with `connected = true` and
the session persisted, the mismatch flag still set. -/
theorem connectWallet_connects_on_wrong_network :
    (connectWallet (envOf (mainnetWallet "0xabc" (Except.error userRejected)) "0xabc")
        (mount [])).1.state.networkError = true
    ∧ (connectWallet (envOf (mainnetWallet "0xabc" (Except.error userRejected)) "0xabc")
        (mount [])).1.state.connected = true
    ∧ getItem "walletConnected"
        (connectWallet (envOf (mainnetWallet "0xabc" (Except.error userRejected)) "0xabc")
          (mount [])).1 = some "true"
    ∧ getItem "connectedAccount"
        (connectWallet (envOf (mainnetWallet "0xabc" (Except.error userRejected)) "0xabc")
          (mount [])).1 = some "0xabc"
    ∧ render (connectWallet (envOf (mainnetWallet "0xabc" (Except.error userRejected)) "0xabc")
        (setShowLanding false (mount []))).1.state
      ≠ View.connectWalletScreen true := by
  decide

/-- C6, amended. When the chain check of `connectWallet` reports a mismatch and the
switch fails (the switch request is rejected and, if the code is 4902, the add-chain
request is rejected too), the mismatch flag `networkError` is true after the call
whatever the later steps do, and the connect goes on: if the account request is
rejected or the signer fails, `connected` and `localStorage` are as before the call;
if both succeed, `connected = true` and the session is persisted for the address the
signer yields. -/
theorem connectWallet_mismatch_switch_failed (env : Env) (eth : Wallet) (w : World)
    (chainId : String) (switchError : JsError)
    (hwallet : env.ethereum = some eth)
    (hchain : eth.chainId w.trace = Except.ok chainId)
    (hmismatch : chainId ≠ SEPOLIA_CHAIN_ID)
    (hswitch : eth.switchChain (w.trace ++ [chainIdRequest]) = Except.error switchError)
    (hadd : switchError.code = some 4902 →
      ∃ addError, eth.addChain (w.trace ++ [chainIdRequest, switchRequest])
        = Except.error addError) :
    (connectWallet env w).1.state.networkError = true
    ∧ ∃ w1, connectNetworkStep env w = (w1, Except.ok ())
      ∧ (∀ e, (eth.requestAccounts w1.trace = Except.error e
                ∨ (∃ accounts, eth.requestAccounts w1.trace = Except.ok accounts)
                    ∧ env.getAddress (w1.trace ++ [requestAccountsRequest]) = Except.error e) →
          (connectWallet env w).1.state.connected = w.state.connected
          ∧ (connectWallet env w).1.state.localStorage = w.state.localStorage)
      ∧ (∀ accounts a, eth.requestAccounts w1.trace = Except.ok accounts →
          env.getAddress (w1.trace ++ [requestAccountsRequest]) = Except.ok a →
          (connectWallet env w).1.state.connected = true
          ∧ getItem "walletConnected" (connectWallet env w).1 = some "true"
          ∧ getItem "connectedAccount" (connectWallet env w).1 = some a) := by
  obtain ⟨w1, hnet, hstate⟩ :=
    connectNetworkStep_switch_failed hwallet hchain hmismatch hswitch hadd
  have hflag : (connectWallet env w).1.state.networkError = true := by
    cases hacc : eth.requestAccounts w1.trace with
    | error e =>
      rw [connectWallet_of_accounts_error hwallet hnet hacc]
      simp [setLoading, emit, hstate]
    | ok accounts =>
      cases haddr : env.getAddress (w1.trace ++ [requestAccountsRequest]) with
      | error e =>
        rw [connectWallet_of_address_error hwallet hnet hacc haddr]
        simp [setLoading, emit, hstate]
      | ok a =>
        rw [(connectWallet_connected hwallet hnet hacc haddr).2.2.2.2.2.2.1, hstate]
  refine ⟨hflag, w1, hnet, ?_, ?_⟩
  · intro e hfail
    rcases hfail with hacc | ⟨⟨accounts, hacc⟩, haddr⟩
    · rw [connectWallet_of_accounts_error hwallet hnet hacc]
      simp [setLoading, emit, hstate]
    · rw [connectWallet_of_address_error hwallet hnet hacc haddr]
      simp [setLoading, emit, hstate]
  · intro accounts a hacc haddr
    obtain ⟨_, h2, h3, h4, _⟩ := connectWallet_connected hwallet hnet hacc haddr
    exact ⟨h4, h2, h3⟩

/-- C6 amended, evaluated: a wallet on main net whose user declines the switch with
4001 and then approves the account request. -/
theorem connectWallet_mismatch_switch_failed_witness :
    (switchDecliningWallet "0xabc").chainId (mount []).trace = Except.ok "0x1"
    ∧ (switchDecliningWallet "0xabc").switchChain ((mount []).trace ++ [chainIdRequest])
        = Except.error userRejected
    ∧ (connectWallet (envOf (switchDecliningWallet "0xabc") "0xabc")
        (mount [])).1.state.networkError = true :=
  ⟨rfl, rfl,
   (connectWallet_mismatch_switch_failed (envOf (switchDecliningWallet "0xabc") "0xabc")
      (switchDecliningWallet "0xabc") (mount []) "0x1" userRejected rfl rfl (by decide) rfl
      (fun h => absurd h (by decide))).1⟩

/-! ## Initialisation -/

/-- `connectWallet` never throws and always ends with `loading = false`. -/
theorem connectWallet_ok (env : Env) (w : World) :
    (connectWallet env w).2 = Except.ok ()
    ∧ (connectWallet env w).1.state.loading = false := by
  unfold connectWallet
  cases env.ethereum with
  | none => exact ⟨rfl, rfl⟩
  | some eth =>
    simp only []
    split <;> exact ⟨rfl, rfl⟩

/-- A persisted session survives `connectWallet`: the call either leaves
`localStorage` alone or writes both entries. -/
theorem connectWallet_keeps_session (env : Env) (w : World)
    (hflag : getItem "walletConnected" w = some "true")
    (hsaved : (getItem "connectedAccount" w).isSome = true) :
    getItem "walletConnected" (connectWallet env w).1 = some "true"
    ∧ (getItem "connectedAccount" (connectWallet env w).1).isSome = true := by
  cases hwallet : env.ethereum with
  | none =>
    have h : (connectWallet env w).1.state.localStorage = w.state.localStorage := by
      simp [connectWallet, hwallet, setLoading, emit]
    simp only [getItem] at hflag hsaved ⊢
    rw [h]
    exact ⟨hflag, hsaved⟩
  | some eth =>
    obtain ⟨b, hframe⟩ := connectNetworkStep_frame env w
    rcases hnet : connectNetworkStep env w with ⟨w1, r⟩
    rw [hnet] at hframe
    simp only [] at hframe
    have hkeep : ∀ w2 : World, w2.state.localStorage = w.state.localStorage →
        getItem "walletConnected" w2 = some "true"
        ∧ (getItem "connectedAccount" w2).isSome = true := by
      intro w2 h
      simp only [getItem] at hflag hsaved ⊢
      rw [h]
      exact ⟨hflag, hsaved⟩
    cases r with
    | error e =>
      rw [connectWallet_of_network_error hwallet hnet]
      exact hkeep _ (by simp [setLoading, emit, hframe])
    | ok u =>
      cases hacc : eth.requestAccounts w1.trace with
      | error e =>
        rw [connectWallet_of_accounts_error hwallet hnet hacc]
        exact hkeep _ (by simp [setLoading, emit, hframe])
      | ok accounts =>
        cases haddr : env.getAddress (w1.trace ++ [requestAccountsRequest]) with
        | error e =>
          rw [connectWallet_of_address_error hwallet hnet hacc haddr]
          exact hkeep _ (by simp [setLoading, emit, hframe])
        | ok a =>
          obtain ⟨_, h2, h3, _⟩ := connectWallet_connected hwallet hnet hacc haddr
          exact ⟨h2, by rw [h3]; rfl⟩

/-- The path of `init` once the chain query is answered and a session with a
non-empty account is persisted: the accounts are queried and compared. -/
theorem init_of_session {env : Env} {eth : Wallet} {w : World} {chainId A : String}
    {accounts : List String}
    (hwallet : env.ethereum = some eth)
    (hflag : getItem "walletConnected" w = some "true")
    (hsaved : getItem "connectedAccount" w = some A)
    (hA : A ≠ "")
    (hchain : eth.chainId w.trace = Except.ok chainId)
    (haccounts : eth.accounts (w.trace ++ [chainIdRequest]) = Except.ok accounts) :
    init env w =
      if sameAccount accounts A then
        (setShowLanding false (connectWallet env (initQueried chainId w)).1, Except.ok ())
      else
        (initQueried chainId w |> removeItem "walletConnected"
            |> removeItem "connectedAccount" |> setLoading false,
         Except.ok ()) := by
  have ht : truthy A = true := by simpa [truthy] using hA
  have hok := (connectWallet_ok env (initQueried chainId w)).1
  rcases hcw : connectWallet env (initQueried chainId w) with ⟨w3, r⟩
  rw [hcw] at hok
  simp only [] at hok
  subst hok
  have hcw2 : connectWallet env
      (emit accountsRequest (setNetworkError (chainId != SEPOLIA_CHAIN_ID) (emit chainIdRequest w)))
      = (w3, Except.ok ()) := hcw
  simp [init, hwallet, checkNetwork_answered hwallet hchain, hflag, hsaved, ht, haccounts,
    initQueried, hcw2]

/-- C3 as stated fails: a matching account does not make the end state Connected
when the connect that `init` runs fails. Stored account 0xABC, the wallet reports
0xabc (a match ignoring case) and declines the account request: the end state shows
the connect screen, `showLanding = false` with `connected = false`. And when the
wallet rejects the chain query that opens `init`, connect is not run at all: the
only effect is that query and `loading` stays true. -/
theorem init_match_not_connected :
    (decliningWallet "0xabc").accounts [chainIdRequest] = Except.ok ["0xabc"]
    ∧ sameAccount ["0xabc"] "0xABC" = true
    ∧ (init (envOf (decliningWallet "0xabc") "0xabc") (mount (savedSession "0xABC"))).1.state.connected
        = false
    ∧ (init (envOf (decliningWallet "0xabc") "0xabc") (mount (savedSession "0xABC"))).1.state.showLanding
        = false
    ∧ render (init (envOf (decliningWallet "0xabc") "0xabc") (mount (savedSession "0xABC"))).1.state
        = View.connectWalletScreen false
    ∧ (noChainWallet ["0xabc"]).accounts [chainIdRequest] = Except.ok ["0xabc"]
    ∧ (init (envOf (noChainWallet ["0xabc"]) "0xabc") (mount (savedSession "0xABC"))).1.trace
        = [chainIdRequest]
    ∧ (init (envOf (noChainWallet ["0xabc"]) "0xabc") (mount (savedSession "0xABC"))).1.state.connected
        = false
    ∧ (init (envOf (noChainWallet ["0xabc"]) "0xabc") (mount (savedSession "0xABC"))).1.state.loading
        = true := by
  refine ⟨rfl, ?_, ?_, ?_, ?_, rfl, ?_, ?_, ?_⟩ <;> decide

/-- C3, amended. On initialisation with a wallet that answers the chain query, a
persisted session `walletConnected = "true"`, `connectedAccount = A` (A non-empty)
and an `eth_accounts` answer whose first account equals A ignoring letter case:
`init` does not throw and runs `connectWallet` itself, right after the accounts
query; the persisted session is not cleared; the end state has
`showLanding = false` and `loading = false`; and it is Connected (`connected = true`,
`account` and the persisted account the address the signer yields) whenever that
connect succeeds, that is, its network step does not throw, the account request is
approved and the signer yields an address. -/
theorem init_auto_reconnect (env : Env) (eth : Wallet) (w : World) (chainId A first : String)
    (others : List String)
    (hwallet : env.ethereum = some eth)
    (hflag : getItem "walletConnected" w = some "true")
    (hsaved : getItem "connectedAccount" w = some A)
    (hA : A ≠ "")
    (hchain : eth.chainId w.trace = Except.ok chainId)
    (haccounts : eth.accounts (w.trace ++ [chainIdRequest]) = Except.ok (first :: others))
    (hsame : toLowerCase first = toLowerCase A) :
    init env w
      = (setShowLanding false (connectWallet env (initQueried chainId w)).1, Except.ok ())
    ∧ getItem "walletConnected" (init env w).1 = some "true"
    ∧ (getItem "connectedAccount" (init env w).1).isSome = true
    ∧ (init env w).1.state.showLanding = false
    ∧ (init env w).1.state.loading = false
    ∧ (∀ w3 accounts a,
        connectNetworkStep env (initQueried chainId w) = (w3, Except.ok ()) →
        eth.requestAccounts w3.trace = Except.ok accounts →
        env.getAddress (w3.trace ++ [requestAccountsRequest]) = Except.ok a →
        (init env w).1.state.connected = true
        ∧ (init env w).1.state.account = a
        ∧ getItem "connectedAccount" (init env w).1 = some a) := by
  have hmatch : sameAccount (first :: others) A = true := by simp [sameAccount, hsame]
  have hinit := init_of_session hwallet hflag hsaved hA hchain haccounts
  rw [hmatch] at hinit
  simp only [if_true] at hinit
  have hkeep := connectWallet_keeps_session env (initQueried chainId w)
    (by simpa [initQueried] using hflag) (by simp [initQueried, hsaved])
  refine ⟨hinit, ?_, ?_, ?_, ?_, ?_⟩
  · rw [hinit]; simpa using hkeep.1
  · rw [hinit]; simpa using hkeep.2
  · rw [hinit]; rfl
  · rw [hinit]; exact (connectWallet_ok env (initQueried chainId w)).2
  · intro w3 accounts a hnet hacc haddr
    obtain ⟨_, _, h3, h4, h5, _⟩ := connectWallet_connected hwallet hnet hacc haddr
    rw [hinit]
    exact ⟨h4, h5, by simpa using h3⟩

/-- C3 amended, evaluated: stored account 0xABC, the wallet on Sepolia reports 0xabc
and approves; the end state is Connected and the dashboard is rendered. -/
theorem init_auto_reconnect_witness :
    toLowerCase "0xabc" = toLowerCase "0xABC"
    ∧ (init (envOf (sepoliaWallet "0xabc") "0xabc") (mount (savedSession "0xABC"))).1.state.showLanding
        = false
    ∧ (init (envOf (sepoliaWallet "0xabc") "0xabc") (mount (savedSession "0xABC"))).1.state.connected
        = true := by
  have h := init_auto_reconnect (envOf (sepoliaWallet "0xabc") "0xabc") (sepoliaWallet "0xabc")
    (mount (savedSession "0xABC")) SEPOLIA_CHAIN_ID "0xABC" "0xabc" []
    rfl (by decide) (by decide) (by decide) rfl rfl (by decide)
  exact ⟨by decide, h.2.2.2.1,
    (h.2.2.2.2.2 _ ["0xabc"] "0xabc" (connectNetworkStep_expected rfl rfl) rfl rfl).1⟩

/-- C4 as stated fails: when the wallet rejects the chain query that opens `init`,
`init` is rejected before it reads the session. With a persisted session for 0xabc
and a wallet that reports no account, both entries are still there and `loading` is
still true, so the loading screen stays. -/
theorem init_rejected_query_keeps_session :
    (noChainWallet []).accounts [chainIdRequest] = Except.ok []
    ∧ (init (envOf (noChainWallet []) "0xabc") (mount (savedSession "0xabc"))).2
        = Except.error disconnected
    ∧ getItem "walletConnected"
        (init (envOf (noChainWallet []) "0xabc") (mount (savedSession "0xabc"))).1 = some "true"
    ∧ getItem "connectedAccount"
        (init (envOf (noChainWallet []) "0xabc") (mount (savedSession "0xabc"))).1 = some "0xabc"
    ∧ (init (envOf (noChainWallet []) "0xabc") (mount (savedSession "0xabc"))).1.state.loading
        = true
    ∧ render (init (envOf (noChainWallet []) "0xabc") (mount (savedSession "0xabc"))).1.state
        = View.loadingContainer := by
  refine ⟨rfl, rfl, ?_, ?_, ?_, ?_⟩ <;> decide

/-- C4, amended. On initialisation (the mount world: default React state, any
`localStorage`) with a wallet that answers the chain query, a persisted session
`walletConnected = "true"`, `connectedAccount = A` (A non-empty) and an
`eth_accounts` answer that is empty or whose first account differs from A ignoring
letter case, both being ASCII strings as hex addresses are: `init` does not throw, both persisted entries are removed, the only
effects are the chain query and the accounts query (so `connectWallet` is never
run), and the end state has `showLanding = true`, `connected = false`,
`account = ""`, `contract = null` and `loading = false`: the landing page is
rendered. -/
theorem init_stale_session (env : Env) (eth : Wallet) (storage : List (String × String))
    (chainId A : String) (accounts : List String)
    (hwallet : env.ethereum = some eth)
    (hflag : getItem "walletConnected" (mount storage) = some "true")
    (hsaved : getItem "connectedAccount" (mount storage) = some A)
    (hA : A ≠ "")
    (hchain : eth.chainId [] = Except.ok chainId)
    (haccounts : eth.accounts [chainIdRequest] = Except.ok accounts)
    (hstale : accounts = []
      ∨ ∃ first others, accounts = first :: others
          ∧ isAscii first = true ∧ isAscii A = true
          ∧ toLowerCase first ≠ toLowerCase A) :
    (init env (mount storage)).2 = Except.ok ()
    ∧ getItem "walletConnected" (init env (mount storage)).1 = none
    ∧ getItem "connectedAccount" (init env (mount storage)).1 = none
    ∧ (init env (mount storage)).1.trace = [chainIdRequest, accountsRequest]
    ∧ requestsOf "eth_requestAccounts" (init env (mount storage)).1.trace = []
    ∧ (init env (mount storage)).1.state.showLanding = true
    ∧ (init env (mount storage)).1.state.connected = false
    ∧ (init env (mount storage)).1.state.account = ""
    ∧ (init env (mount storage)).1.state.contract = none
    ∧ (init env (mount storage)).1.state.loading = false
    ∧ render (init env (mount storage)).1.state = View.landingPage := by
  have hdiff : sameAccount accounts A = false := by
    rcases hstale with h | ⟨first, others, h, _, _, hne⟩
    · simp [h, sameAccount]
    · simp [h, sameAccount, hne]
  have hinit := init_of_session (w := mount storage) hwallet hflag hsaved hA hchain
    (by simpa [mount] using haccounts)
  rw [hdiff] at hinit
  simp only [Bool.false_eq_true, if_false] at hinit
  have hne : ("walletConnected" : String) ≠ "connectedAccount" := by decide
  rw [hinit]
  refine ⟨rfl, ?_, ?_, ?_, ?_, rfl, rfl, rfl, rfl, rfl, rfl⟩
  · simp only [getItem_setLoading]
    rw [getItem_removeItem_of_ne hne, getItem_removeItem_self]
  · simp only [getItem_setLoading]
    rw [getItem_removeItem_self]
  · simp [initQueried, removeItem, setLoading, mount]
  · simp [initQueried, removeItem, setLoading, mount, requestsOf, chainIdRequest,
      accountsRequest]

/-- C4 amended, evaluated: stored account 0xabc, the wallet now reports 0xdef. -/
theorem init_stale_session_witness :
    toLowerCase "0xdef" ≠ toLowerCase "0xabc"
    ∧ getItem "walletConnected"
        (init (envOf (sepoliaWallet "0xdef") "0xdef") (mount (savedSession "0xabc"))).1 = none
    ∧ getItem "connectedAccount"
        (init (envOf (sepoliaWallet "0xdef") "0xdef") (mount (savedSession "0xabc"))).1 = none
    ∧ (init (envOf (sepoliaWallet "0xdef") "0xdef") (mount (savedSession "0xabc"))).1.state.connected
        = false := by
  have h := init_stale_session (envOf (sepoliaWallet "0xdef") "0xdef") (sepoliaWallet "0xdef")
    (savedSession "0xabc") SEPOLIA_CHAIN_ID "0xabc" ["0xdef"]
    rfl (by decide) (by decide) (by decide) rfl rfl
    (Or.inr ⟨"0xdef", [], rfl, by decide, by decide, by decide⟩)
  exact ⟨by decide, h.2.1, h.2.2.1, h.2.2.2.2.2.2.1⟩

/-! ## Further properties of the listeners and of `init` -/

/-- The `accountsChanged` listener called with a non-empty list while an account is
persisted. If the first address differs from the persisted one ignoring letter case
(both ASCII strings, as hex addresses are), the persisted account becomes that
address, as received, and exactly one reload is issued; the React state is
untouched. If it is the same ignoring case, nothing happens. -/
theorem onAccountsChanged_nonempty (w : World) (first saved : String) (others : List String)
    (hsaved : getItem "connectedAccount" w = some saved)
    (hne : saved ≠ "") :
    (isAscii first = true → isAscii saved = true → toLowerCase first ≠ toLowerCase saved →
      getItem "connectedAccount" (onAccountsChanged (first :: others) w) = some first
      ∧ getItem "walletConnected" (onAccountsChanged (first :: others) w)
          = getItem "walletConnected" w
      ∧ (onAccountsChanged (first :: others) w).trace = w.trace ++ [Effect.reload]
      ∧ (onAccountsChanged (first :: others) w).state.connected = w.state.connected
      ∧ (onAccountsChanged (first :: others) w).state.account = w.state.account
      ∧ (onAccountsChanged (first :: others) w).state.contract = w.state.contract)
    ∧ (toLowerCase first = toLowerCase saved → onAccountsChanged (first :: others) w = w) := by
  have ht : truthy saved = true := by simpa [truthy] using hne
  constructor
  · intro _ _ hdiff
    have hb : (toLowerCase first != toLowerCase saved) = true := by simpa using hdiff
    have hstep : onAccountsChanged (first :: others) w
        = emit Effect.reload (setItem "connectedAccount" first w) := by
      simp [onAccountsChanged, hsaved, ht, hb]
    have hk : ("walletConnected" : String) ≠ "connectedAccount" := by decide
    rw [hstep]
    refine ⟨?_, ?_, rfl, rfl, rfl, rfl⟩
    · rw [getItem_emit, getItem_setItem_self]
    · rw [getItem_emit, getItem_setItem_of_ne hk]
  · intro hsame
    simp [onAccountsChanged, hsaved, ht, hsame]

/-- The listener evaluated: persisted 0xabc, the wallet switches to 0xDEF. -/
theorem onAccountsChanged_nonempty_witness :
    getItem "connectedAccount"
        (onAccountsChanged ["0xDEF"] (mount (savedSession "0xabc"))) = some "0xDEF"
    ∧ (onAccountsChanged ["0xDEF"] (mount (savedSession "0xabc"))).trace = [Effect.reload] := by
  have h := (onAccountsChanged_nonempty (mount (savedSession "0xabc")) "0xDEF" "0xabc" []
    (by decide) (by decide)).1 (by decide) (by decide) (by decide)
  exact ⟨h.1, h.2.2.1⟩

/-- Initialisation without a usable session. With no wallet, `init` only clears
`loading`. With a wallet that answers the chain query and no persisted session
(`walletConnected` is not "true", or no account or an empty one is stored), `init`
makes the chain query only, sets the mismatch flag from the answer and clears
`loading`; `localStorage` is untouched and the landing page is rendered. -/
theorem init_without_session (env : Env) (storage : List (String × String)) :
    (env.ethereum = none →
      init env (mount storage) = (setLoading false (mount storage), Except.ok ()))
    ∧ (∀ eth chainId, env.ethereum = some eth → eth.chainId [] = Except.ok chainId →
        (getItem "walletConnected" (mount storage) ≠ some "true"
          ∨ getItem "connectedAccount" (mount storage) = none
          ∨ getItem "connectedAccount" (mount storage) = some "") →
        init env (mount storage)
          = (setLoading false
              (setNetworkError (chainId != SEPOLIA_CHAIN_ID) (emit chainIdRequest (mount storage))),
             Except.ok ())
        ∧ (init env (mount storage)).1.state.localStorage = storage
        ∧ (init env (mount storage)).1.trace = [chainIdRequest]
        ∧ render (init env (mount storage)).1.state = View.landingPage) := by
  constructor
  · intro hnone
    simp [init, hnone]
  · intro eth chainId hwallet hchain hno
    have hcheck := checkNetwork_answered (w := mount storage) hwallet hchain
    have hinit : init env (mount storage)
        = (setLoading false
            (setNetworkError (chainId != SEPOLIA_CHAIN_ID) (emit chainIdRequest (mount storage))),
           Except.ok ()) := by
      cases hs : getItem "connectedAccount" (mount storage) with
      | none => simp [init, hwallet, hcheck, hs]
      | some saved =>
        rcases hno with h | h | h
        · simp [init, hwallet, hcheck, hs, h]
        · rw [hs] at h; exact absurd h (by simp)
        · rw [hs] at h
          have hsaved : saved = "" := by simpa using h
          simp [init, hwallet, hcheck, hs, hsaved, truthy]
    rw [hinit]
    exact ⟨rfl, rfl, rfl, rfl⟩

end App
